import Mathlib

/-!
Verification development for the I2C-Control addressing core
(`i2c_device.py`, `i2c_container.py`, `tca9548.py`).

The embedding is shallow:

* The bus transport (`smbus`) is a `Transport` record of pure functions
  returning `Except String _`: `.error c` models an `IOError` with message `c`.
* A Python `raise I2CException(...)` is modelled by a `PyErr` value; its
  constructors correspond one-to-one to the distinct format strings used in
  the source (`typeMismatch` for the attach type-check message,
  `notAttachedCont`/`notAttachedTca` for the two "not attached" messages,
  `chainIntegrity` for the "not properly detached from the TCA" message and
  `busError` for the message built by `I2CDevice.handle_error`, carrying the
  same four holes: access name, device address, register, cause).
  `danglingRef` is a model-level error marking a reference to an object id
  that is absent from the state; it has no Python counterpart and is
  unreachable in faithfully-built configurations.
* Mutable object state lives in `St`: `conts` maps a container object id to
  its `_attached_devices` list, `tcas` maps a TCA object id to its
  `TCAState` (`address`, `_attached_devices` dict as an association list,
  `_selected_channel`), `hooks` records each object's `pre_access` field
  (absence of a key means `pre_access is None`), `hw` records the physical
  contents of register 0 at each bus address (updated only by a successful
  bus write to register 0), and `exc` is the process-wide
  `I2CDevice._enable_exceptions` flag.
* The chain of `pre_access` callables followed during an access is the
  inductive `Hook`: `root` is `pre_access = None`, `contCbk cid up` is
  `I2CContainer._device_callback` bound to container `cid` whose own
  `pre_access` is `up`, and `tcaCbk tid up` is `TCA9548.__device_callback`
  bound to TCA `tid` whose own `pre_access` is `up`.  `runHook` interprets
  such a chain, emitting an event trace (`Ev`).  Synthetic events
  (`dispatchCont`, `dispatchTCA`, `cacheCheck`) mark execution reaching the
  corresponding source lines; `busWrite8` marks a bus write being issued
  (attempted), `txn` marks the decorated method body running.
* Debug logging (`logging.debug` calls guarded by `self.debug`) is pure
  output and is not modelled.  The factory branch of the attach methods
  (`if callable(device): ...`) constructs a new object and is outside the
  claims settled here; the attach embeddings cover the instance path.
-/

/-- Association-list lookup, modelling a Python dict read keyed by object
identity or bus address. -/
def lookupA {α : Type} : List (Nat × α) → Nat → Option α
  | [], _ => none
  | (k, v) :: rest, i => if k = i then some v else lookupA rest i

/-- Association-list insert/update, modelling a Python dict assignment:
an existing key keeps its position, a new key is appended. -/
def setA {α : Type} : List (Nat × α) → Nat → α → List (Nat × α)
  | [], i, v => [(i, v)]
  | (k, w) :: rest, i, v => if k = i then (i, v) :: rest else (k, w) :: setA rest i v

/-- Association-list removal, modelling Python `dict.pop(key)` / deleting a key. -/
def eraseA {α : Type} : List (Nat × α) → Nat → List (Nat × α)
  | [], _ => []
  | (k, w) :: rest, i => if k = i then rest else (k, w) :: eraseA rest i

/-- Removal of the first occurrence, modelling Python `list.remove(x)`. -/
def removeFirst : List Nat → Nat → List Nat
  | [], _ => []
  | x :: rest, d => if x = d then rest else x :: removeFirst rest d

/-- Python exceptions raised by the core, one constructor per distinct
format string in the source (see the module docstring above). -/
inductive PyErr
  | typeMismatch
  | notAttachedCont (dev : Nat)
  | notAttachedTca (dev : Nat)
  | chainIntegrity (dev : Nat)
  | busError (opName : String) (address : Nat) (register : Nat) (cause : String)
  | danglingRef (objId : Nat)
deriving DecidableEq, Repr

/-- The bus transport boundary (`smbus`): byte/word reads and byte writes.
`.error c` models an `IOError` whose message is `c`. -/
structure Transport where
  readByteData : Nat → Nat → Except String Nat
  readWordData : Nat → Nat → Except String Nat
  writeByteData : Nat → Nat → Nat → Except String Unit

/-- The error sentinel `I2CDevice.ERROR`. -/
def I2CDevice.ERROR : Int := -1

/-- Embeds `I2CDevice.handle_error(self, access_name, register, error)`:
raise an `I2CException` carrying (access name, `self.address`, register,
cause) when exceptions are enabled, else return the `ERROR` sentinel. -/
def I2CDevice.handle_error (exc : Bool) (address : Nat) (access_name : String)
    (register : Nat) (cause : String) : Except PyErr Int :=
  if exc then Except.error (PyErr.busError access_name address register cause)
  else Except.ok I2CDevice.ERROR

/-- Embeds `I2CDevice.write8` (value level): a successful write returns
`None` (modelled `Except.ok none`); on `IOError` the result of
`handle_error('write8', reg, err)` is returned. -/
def I2CDevice.write8 (t : Transport) (exc : Bool) (address reg value : Nat) :
    Except PyErr (Option Int) :=
  match t.writeByteData address reg value with
  | Except.ok _ => Except.ok none
  | Except.error err => (I2CDevice.handle_error exc address "write8" reg err).map some

/-- Embeds `I2CDevice.write16`: as in the source, the failure path calls
`handle_error('write16', value, err)` — passing `value`, not `reg`, in the
register slot. -/
def I2CDevice.write16 (t : Transport) (exc : Bool) (address reg value : Nat) :
    Except PyErr (Option Int) :=
  match t.writeByteData address reg value with
  | Except.ok _ => Except.ok none
  | Except.error err => (I2CDevice.handle_error exc address "write16" value err).map some

/-- Embeds `I2CDevice.readU8`. -/
def I2CDevice.readU8 (t : Transport) (exc : Bool) (address reg : Nat) :
    Except PyErr Int :=
  match t.readByteData address reg with
  | Except.ok result => Except.ok (result : Int)
  | Except.error err => I2CDevice.handle_error exc address "readU8" reg err

/-- Embeds `I2CDevice.readS8`: the raw byte is sign-converted with
`result - 256 if result > 127 else result`. -/
def I2CDevice.readS8 (t : Transport) (exc : Bool) (address reg : Nat) :
    Except PyErr Int :=
  match t.readByteData address reg with
  | Except.ok result =>
      Except.ok (if result > 127 then (result : Int) - 256 else (result : Int))
  | Except.error err => I2CDevice.handle_error exc address "readS8" reg err

/-- Embeds `I2CDevice.readU16`. -/
def I2CDevice.readU16 (t : Transport) (exc : Bool) (address reg : Nat) :
    Except PyErr Int :=
  match t.readWordData address reg with
  | Except.ok result => Except.ok (result : Int)
  | Except.error err => I2CDevice.handle_error exc address "readU16" reg err

/-- Embeds `I2CDevice.readS16`: identical to `readU16` apart from the access
name passed to `handle_error`; no sign conversion is performed. -/
def I2CDevice.readS16 (t : Transport) (exc : Bool) (address reg : Nat) :
    Except PyErr Int :=
  match t.readWordData address reg with
  | Except.ok result => Except.ok (result : Int)
  | Except.error err => I2CDevice.handle_error exc address "readS16" reg err

/-- The mutable fields of a `TCA9548` instance: its bus `address`, its
`_attached_devices` dict (device object id, channel) and its
`_selected_channel`. -/
structure TCAState where
  address : Nat
  attached : List (Nat × Nat)
  selected : Option Nat
deriving DecidableEq, Repr

/-- The identity of a bound `pre_access` callable: which parent object's
dispatch method it is. -/
inductive HookRef
  | contCb (contId : Nat)
  | tcaCb (tcaId : Nat)
deriving DecidableEq, Repr

/-- The whole mutable program state; see the module docstring for the
meaning of each field. -/
structure St where
  exc : Bool
  conts : List (Nat × List Nat)
  tcas : List (Nat × TCAState)
  hooks : List (Nat × HookRef)
  hw : List (Nat × Nat)
deriving DecidableEq, Repr

/-- Events emitted while interpreting an access; see the module docstring. -/
inductive Ev
  | busWrite8 (address reg value : Nat)
  | dispatchCont (contId : Nat)
  | dispatchTCA (tcaId dev : Nat)
  | cacheCheck (tcaId dev : Nat)
  | txn (dev : Nat) (opName : String) (reg : Nat)
deriving DecidableEq, Repr

/-- A resolved `pre_access` chain (acyclic by construction, as produced by
well-formed attach sequences); see the module docstring. -/
inductive Hook
  | root
  | contCbk (contId : Nat) (up : Hook)
  | tcaCbk (tcaId : Nat) (up : Hook)
deriving DecidableEq, Repr

/-- Interprets a `pre_access` chain invoked with device argument `dev`.

`contCbk` embeds `I2CContainer._device_callback`: it invokes its own
`pre_access` (passing itself) when set, and nothing else.

`tcaCbk` embeds `TCA9548.__device_callback` line by line: the membership
check of line 49 (raising the chain-integrity `I2CException` on failure),
the chained `self.pre_access(self)` call of lines 53-54, the fresh reads of
`self._attached_devices[device]` and `self._selected_channel` at line 57
with the cache-hit early return, the cache update of line 60 (which happens
before the bus write), and the `self.write8(0, 1 << channel)` call of
line 63 — whose `call_pre_access` decorator invokes `self.pre_access` a
second time before the bus write, and whose `IOError` path calls
`handle_error('write8', 0, err)` (raising only when exceptions are
enabled).  `1 <<< ch` is the select value `1 << channel`; the value
argument of line 63 re-reads the dict, which no dispatch mutates, so it
equals the channel read at line 57. -/
def runHook (t : Transport) : Hook → Nat → St → St × List Ev × Option PyErr
  | Hook.root, _, s => (s, [], none)
  | Hook.contCbk cid up, _, s =>
      match runHook t up cid s with
      | (s1, evs, e) => (s1, Ev.dispatchCont cid :: evs, e)
  | Hook.tcaCbk tid up, dev, s =>
      match lookupA s.tcas tid with
      | none => (s, [Ev.dispatchTCA tid dev], some (PyErr.danglingRef tid))
      | some tc =>
        match lookupA tc.attached dev with
        | none => (s, [Ev.dispatchTCA tid dev], some (PyErr.chainIntegrity dev))
        | some _ =>
          match runHook t up tid s with
          | (s1, evs1, some e) => (s1, Ev.dispatchTCA tid dev :: evs1, some e)
          | (s1, evs1, none) =>
            match lookupA s1.tcas tid with
            | none => (s1, Ev.dispatchTCA tid dev :: evs1, some (PyErr.danglingRef tid))
            | some tc1 =>
              match lookupA tc1.attached dev with
              | none => (s1, Ev.dispatchTCA tid dev :: evs1, some (PyErr.danglingRef tid))
              | some ch =>
                if some ch = tc1.selected then
                  (s1, Ev.dispatchTCA tid dev :: evs1 ++ [Ev.cacheCheck tid dev], none)
                else
                  let s2 : St :=
                    { s1 with tcas := setA s1.tcas tid { tc1 with selected := some ch } }
                  match runHook t up tid s2 with
                  | (s3, evs2, some e) =>
                      (s3, Ev.dispatchTCA tid dev :: evs1 ++ Ev.cacheCheck tid dev :: evs2,
                       some e)
                  | (s3, evs2, none) =>
                    let tr := Ev.dispatchTCA tid dev :: evs1 ++ Ev.cacheCheck tid dev ::
                      evs2 ++ [Ev.busWrite8 tc1.address 0 (1 <<< ch)]
                    match t.writeByteData tc1.address 0 (1 <<< ch) with
                    | Except.ok _ =>
                        ({ s3 with hw := setA s3.hw tc1.address (1 <<< ch) }, tr, none)
                    | Except.error c =>
                        if s3.exc then
                          (s3, tr, some (PyErr.busError "write8" tc1.address 0 c))
                        else (s3, tr, none)

/-- Embeds the `call_pre_access` decorator wrapping every I2CDevice access
method: invoke the device's `pre_access` chain first, then (when that chain
did not raise) run the wrapped method body, marked by the `txn` event. -/
def call_pre_access (t : Transport) (h : Hook) (dev : Nat) (opName : String)
    (reg : Nat) (s : St) : St × List Ev × Option PyErr :=
  match runHook t h dev s with
  | (s1, evs, some e) => (s1, evs, some e)
  | (s1, evs, none) => (s1, evs ++ [Ev.txn dev opName reg], none)

/-- Runs a sequence of accesses `(device, operation name, register)` through
the same `pre_access` chain, collecting one trace per access; a raised
exception aborts the sequence. -/
def runSeq (t : Transport) (h : Hook) (s : St) :
    List (Nat × String × Nat) → St × List (List Ev) × Option PyErr
  | [] => (s, [], none)
  | (dev, op, reg) :: rest =>
      match call_pre_access t h dev op reg s with
      | (s1, evs, some e) => (s1, [evs], some e)
      | (s1, evs, none) =>
          match runSeq t h s1 rest with
          | (s2, trs, e2) => (s2, evs :: trs, e2)

/-- Embeds `TCA9548.__init__` for an instance registered as object `tid`:
fresh `_attached_devices`, `_selected_channel = None`, then `self.write8(0, 0)`
(whose decorator finds `pre_access` still `None`, so no chain runs); on a
successful bus write the physical register-0 contents at `address` become 0,
on `IOError` the `handle_error('write8', 0, err)` path runs. -/
def TCA9548.init (t : Transport) (tid address : Nat) (s : St) :
    St × List Ev × Option PyErr :=
  let s1 : St :=
    { s with tcas := setA s.tcas tid { address := address, attached := [], selected := none } }
  match t.writeByteData address 0 0 with
  | Except.ok _ =>
      ({ s1 with hw := setA s1.hw address 0 }, [Ev.busWrite8 address 0 0], none)
  | Except.error c =>
      if s1.exc then
        (s1, [Ev.busWrite8 address 0 0], some (PyErr.busError "write8" address 0 c))
      else (s1, [Ev.busWrite8 address 0 0], none)

/-- The argument of an attach call: an existing instance (identified by its
object id) or a value that is neither an `I2CDevice` nor an `I2CContainer`. -/
inductive PyObj
  | inst (objId : Nat)
  | nonDevice
deriving DecidableEq, Repr

/-- Embeds `I2CContainer.attach_device` (instance path): the `isinstance`
type guard raises unconditionally for a non-device value; otherwise the
device is appended to `_attached_devices` (even if already present) and its
`pre_access` is set to this container's `_device_callback`. -/
def I2CContainer.attach_device (w : St) (cid : Nat) (dev : PyObj) : St × Option PyErr :=
  match dev with
  | PyObj.nonDevice => (w, some PyErr.typeMismatch)
  | PyObj.inst d =>
      match lookupA w.conts cid with
      | none => (w, some (PyErr.danglingRef cid))
      | some lst =>
          ({ w with conts := setA w.conts cid (lst ++ [d]),
                    hooks := setA w.hooks d (HookRef.contCb cid) }, none)

/-- Embeds `I2CContainer.remove_device`: if the device is in
`_attached_devices`, its first occurrence is removed and its `pre_access`
cleared; otherwise the "was not attached" `I2CException` is raised, in
which case nothing has been mutated. -/
def I2CContainer.remove_device (w : St) (cid d : Nat) : St × Option PyErr :=
  match lookupA w.conts cid with
  | none => (w, some (PyErr.danglingRef cid))
  | some lst =>
      if d ∈ lst then
        ({ w with conts := setA w.conts cid (removeFirst lst d),
                  hooks := eraseA w.hooks d }, none)
      else (w, some (PyErr.notAttachedCont d))

/-- Embeds `TCA9548.attach_device` (instance path): the `isinstance` type
guard raises unconditionally for a non-device value; otherwise
`_attached_devices[device] = channel` and the device's `pre_access` is set
to this TCA's `__device_callback`. -/
def TCA9548.attach_device (w : St) (tid channel : Nat) (dev : PyObj) : St × Option PyErr :=
  match dev with
  | PyObj.nonDevice => (w, some PyErr.typeMismatch)
  | PyObj.inst d =>
      match lookupA w.tcas tid with
      | none => (w, some (PyErr.danglingRef tid))
      | some tc =>
          ({ w with tcas := setA w.tcas tid { tc with attached := setA tc.attached d channel },
                    hooks := setA w.hooks d (HookRef.tcaCb tid) }, none)

/-- Embeds `TCA9548.remove_device`: raises the "is not attached" exception
when the device is absent from `_attached_devices` (nothing mutated),
otherwise pops the channel mapping and clears the device's `pre_access`. -/
def TCA9548.remove_device (w : St) (tid d : Nat) : St × Option PyErr :=
  match lookupA w.tcas tid with
  | none => (w, some (PyErr.danglingRef tid))
  | some tc =>
      if (lookupA tc.attached d).isSome then
        ({ w with tcas := setA w.tcas tid { tc with attached := eraseA tc.attached d },
                  hooks := eraseA w.hooks d }, none)
      else (w, some (PyErr.notAttachedTca d))

/-- Selects the bus-write events of a trace (channel-select traffic). -/
def isSelectWrite : Ev → Bool
  | Ev.busWrite8 _ _ _ => true
  | _ => false

/-- The channel-select writes contained in a trace. -/
def selectWrites (evs : List Ev) : List Ev := evs.filter isSelectWrite

/-- Specification-side pattern (from the claim's words, not from the
source): given the cached channel, the expected per-access indicator of
whether a channel-select write occurs — true exactly when the requested
channel differs from the cache, the cache becoming that channel afterwards. -/
def expectedSelects : Option Nat → List Nat → List Bool
  | _, [] => []
  | cache, ch :: rest => (some ch != cache) :: expectedSelects (some ch) rest

/-- A transport on which every transaction succeeds (reads return 0). -/
def tOk : Transport :=
  { readByteData := fun _ _ => Except.ok 0
    readWordData := fun _ _ => Except.ok 0
    writeByteData := fun _ _ _ => Except.ok () }

/-- A transport on which every transaction fails with an `IOError`. -/
def tFail : Transport :=
  { readByteData := fun _ _ => Except.error "IOError"
    readWordData := fun _ _ => Except.error "IOError"
    writeByteData := fun _ _ _ => Except.error "IOError" }

/-- A transport whose byte reads return 0xFF (255). -/
def tByte255 : Transport :=
  { readByteData := fun _ _ => Except.ok 255
    readWordData := fun _ _ => Except.ok 0
    writeByteData := fun _ _ _ => Except.ok () }

/-- Scenario: two fresh containers (ids 0 and 1), a freestanding device 10. -/
def wTwoConts : St := { exc := false, conts := [(0, []), (1, [])], tcas := [], hooks := [], hw := [] }

/-- Scenario: device 10 attached to container 0. -/
def wAttachedA : St := (I2CContainer.attach_device wTwoConts 0 (PyObj.inst 10)).1

/-- Scenario: device 10 subsequently attached to container 1 as well. -/
def wAttachedAB : St := (I2CContainer.attach_device wAttachedA 1 (PyObj.inst 10)).1

/-- Scenario for the cache/hardware divergence: one TCA (object 0) at bus
address 0x70 with device 5 attached on channel 2, selected channel unknown,
physical register 0 holding 0, exceptions disabled. -/
def sMuxFresh : St :=
  { exc := false, conts := [],
    tcas := [(0, { address := 112, attached := [(5, 2)], selected := none })],
    hooks := [(5, HookRef.tcaCb 0)], hw := [(112, 0)] }

/-- Scenario combining both parent kinds: containers 0 and 1 each listing
device 10 (whose hook points at container 1), and TCA 7 at bus address 0x70
with device 5 on channel 2. -/
def wMix : St :=
  { exc := false, conts := [(0, [10]), (1, [10])],
    tcas := [(7, { address := 112, attached := [(5, 2)], selected := none })],
    hooks := [(10, HookRef.contCb 1), (5, HookRef.tcaCb 7)], hw := [(112, 0)] }

/-- Lookup after an update at the same key. -/
theorem lookupA_setA_self {α : Type} (l : List (Nat × α)) (k : Nat) (v : α) :
    lookupA (setA l k v) k = some v := by
  induction l with
  | nil => simp [setA, lookupA]
  | cons p rest ih =>
      obtain ⟨k', w⟩ := p
      by_cases h : k' = k
      · subst h
        simp [setA, lookupA]
      · simp [setA, lookupA, h, ih]

/-- Lookup after an update at a different key. -/
theorem lookupA_setA_ne {α : Type} (l : List (Nat × α)) (k i : Nat) (v : α)
    (h : i ≠ k) : lookupA (setA l k v) i = lookupA l i := by
  induction l with
  | nil => simp [setA, lookupA, Ne.symm h]
  | cons p rest ih =>
      obtain ⟨k', w⟩ := p
      by_cases hk : k' = k
      · subst hk
        simp [setA, lookupA, Ne.symm h]
      · by_cases hi : k' = i
        · subst hi
          simp [setA, lookupA, hk]
        · simp [setA, lookupA, hk, hi, ih]

/-- A key absent from the key list is not found. -/
theorem lookupA_not_mem {α : Type} (l : List (Nat × α)) (k : Nat)
    (h : k ∉ l.map Prod.fst) : lookupA l k = none := by
  induction l with
  | nil => simp [lookupA]
  | cons p rest ih =>
      obtain ⟨k', w⟩ := p
      simp only [List.map_cons, List.mem_cons, not_or] at h
      have : k' ≠ k := fun he => h.1 he.symm
      simp [lookupA, this, ih h.2]

/-- Lookup after erasing a key, when keys are unique. -/
theorem lookupA_eraseA_self {α : Type} (l : List (Nat × α)) (k : Nat)
    (h : (l.map Prod.fst).Nodup) : lookupA (eraseA l k) k = none := by
  induction l with
  | nil => simp [eraseA, lookupA]
  | cons p rest ih =>
      obtain ⟨k', w⟩ := p
      simp only [List.map_cons, List.nodup_cons] at h
      by_cases hk : k' = k
      · subst hk
        simp only [eraseA, if_pos rfl]
        exact lookupA_not_mem rest k' h.1
      · simp [eraseA, lookupA, hk, ih h.2]

/-- C6: a transaction primitive failing on the bus with exceptions enabled
raises an error payload carrying operation name, device address, register
and cause — but `write16` on register 5 with value 4660 puts the value 4660,
not the register 5, in the register slot of the payload, because the source
passes `value` instead of `reg` to `handle_error`. -/
theorem c6_write16_error_payload :
    I2CDevice.write16 tFail true 48 5 4660 =
      Except.error (PyErr.busError "write16" 48 4660 "IOError")
  ∧ (4660 : Nat) ≠ 5 := by
  exact ⟨rfl, by decide⟩

/-- C9 counterexample: the sentinel returned by a failed `readS8` is the
same value (-1) that a successful `readS8` of byte 0xFF returns, so it is
not distinguishable from every legitimately read value. -/
theorem c9_counterexample :
    I2CDevice.readS8 tByte255 false 7 3 = Except.ok (-1)
  ∧ I2CDevice.readS8 tFail false 7 3 = Except.ok I2CDevice.ERROR
  ∧ I2CDevice.ERROR = -1 := by
  refine ⟨?_, rfl, rfl⟩
  show Except.ok (if 255 > 127 then (255 : Int) - 256 else (255 : Int)) = Except.ok (-1)
  norm_num

/-- C9 (amended): with exceptions disabled a failed primitive returns the
sentinel -1; every successful `readU8`, `readU16` or `readS16` value is a
natural number cast, hence never -1, so the sentinel is distinguishable for
those primitives — but a successful `readS8` of byte 255 also returns -1. -/
theorem c9_amended_sentinel (t : Transport) (a r : Nat) (c : String) (v : Nat) :
    (t.readWordData a r = Except.error c →
       I2CDevice.readS16 t false a r = Except.ok (-1)
     ∧ I2CDevice.readU16 t false a r = Except.ok (-1))
  ∧ (t.readByteData a r = Except.error c →
       I2CDevice.readU8 t false a r = Except.ok (-1)
     ∧ I2CDevice.readS8 t false a r = Except.ok (-1))
  ∧ (t.readWordData a r = Except.ok v →
       I2CDevice.readS16 t false a r = Except.ok (v : Int) ∧ (v : Int) ≠ -1)
  ∧ (t.readByteData a r = Except.ok v →
       I2CDevice.readU8 t false a r = Except.ok (v : Int) ∧ (v : Int) ≠ -1)
  ∧ (t.readByteData a r = Except.ok 255 →
       I2CDevice.readS8 t false a r = Except.ok (-1)) := by
  have hv : (v : Int) ≠ -1 := by omega
  refine ⟨fun h => ?_, fun h => ?_, fun h => ?_, fun h => ?_, fun h => ?_⟩
  · unfold I2CDevice.readS16 I2CDevice.readU16 I2CDevice.handle_error I2CDevice.ERROR
    rw [h]
    exact ⟨rfl, rfl⟩
  · unfold I2CDevice.readU8 I2CDevice.readS8 I2CDevice.handle_error I2CDevice.ERROR
    rw [h]
    exact ⟨rfl, rfl⟩
  · unfold I2CDevice.readS16
    rw [h]
    exact ⟨rfl, hv⟩
  · unfold I2CDevice.readU8
    rw [h]
    exact ⟨rfl, hv⟩
  · unfold I2CDevice.readS8
    rw [h]
    norm_num

/-- C9 witness: the amended sentinel statement instantiated at a concrete
transport, address and register. -/
theorem c9_amended_sentinel_witness :
    (tFail.readWordData 7 3 = Except.error "IOError" →
       I2CDevice.readS16 tFail false 7 3 = Except.ok (-1)
     ∧ I2CDevice.readU16 tFail false 7 3 = Except.ok (-1))
  ∧ (tFail.readByteData 7 3 = Except.error "IOError" →
       I2CDevice.readU8 tFail false 7 3 = Except.ok (-1)
     ∧ I2CDevice.readS8 tFail false 7 3 = Except.ok (-1))
  ∧ (tFail.readWordData 7 3 = Except.ok 255 →
       I2CDevice.readS16 tFail false 7 3 = Except.ok ((255 : Nat) : Int)
     ∧ ((255 : Nat) : Int) ≠ -1)
  ∧ (tFail.readByteData 7 3 = Except.ok 255 →
       I2CDevice.readU8 tFail false 7 3 = Except.ok ((255 : Nat) : Int)
     ∧ ((255 : Nat) : Int) ≠ -1)
  ∧ (tFail.readByteData 7 3 = Except.ok 255 →
       I2CDevice.readS8 tFail false 7 3 = Except.ok (-1)) :=
  c9_amended_sentinel tFail 7 3 "IOError" 255

/-- C10: `readS16` returns exactly the same value as `readU16` in every
case (same success value, same sentinel, and an exception is raised by one
exactly when it is raised by the other, the payloads differing only in the
operation-name label); a successful `readS16` is the plain word read from
the bus, so it is never negative — no sign extension is performed. -/
theorem c10_readS16_equals_readU16 (t : Transport) (exc : Bool) (a r : Nat) :
    (I2CDevice.readS16 t exc a r).toOption = (I2CDevice.readU16 t exc a r).toOption
  ∧ (∀ v : Nat, t.readWordData a r = Except.ok v →
       I2CDevice.readS16 t exc a r = Except.ok (v : Int) ∧ 0 ≤ (v : Int))
  ∧ (∀ e, I2CDevice.readS16 t exc a r = Except.error e →
       ∃ c', e = PyErr.busError "readS16" a r c' ∧
         I2CDevice.readU16 t exc a r = Except.error (PyErr.busError "readU16" a r c')) := by
  unfold I2CDevice.readS16 I2CDevice.readU16 I2CDevice.handle_error
  cases h : t.readWordData a r with
  | ok v =>
      refine ⟨rfl, fun v' hv' => ?_, fun e he => ?_⟩
      · cases hv'
        exact ⟨rfl, Int.natCast_nonneg _⟩
      · cases he
  | error c =>
      cases exc with
      | false =>
          refine ⟨rfl, fun v' hv' => ?_, fun e he => ?_⟩
          · cases hv'
          · cases he
      | true =>
          refine ⟨rfl, fun v' hv' => ?_, fun e he => ?_⟩
          · cases hv'
          · cases he
            exact ⟨c, rfl, rfl⟩

/-- C10 witness: the equivalence instantiated at a concrete transport. -/
theorem c10_readS16_equals_readU16_witness :
    (I2CDevice.readS16 tFail true 7 3).toOption = (I2CDevice.readU16 tFail true 7 3).toOption
  ∧ (∀ v : Nat, tFail.readWordData 7 3 = Except.ok v →
       I2CDevice.readS16 tFail true 7 3 = Except.ok (v : Int) ∧ 0 ≤ (v : Int))
  ∧ (∀ e, I2CDevice.readS16 tFail true 7 3 = Except.error e →
       ∃ c', e = PyErr.busError "readS16" 7 3 c' ∧
         I2CDevice.readU16 tFail true 7 3 = Except.error (PyErr.busError "readU16" 7 3 c')) :=
  c10_readS16_equals_readU16 tFail true 7 3

/-- C4: regardless of the process-wide exceptions flag (the `exc` field of
the quantified state `w`), the structural errors — attaching a value that is
neither an I2CDevice nor an I2CContainer, detaching a non-attached device,
and dispatch invoked for a node absent from the multiplexer's channel map —
are always raised (the error slot is `some _` and no mutation happens),
while a transport-level bus failure in a primitive is raised only when
exceptions are enabled and is otherwise downgraded to the -1 sentinel. -/
theorem c4_structural_errors_always_raised (w : St) (cid tid channel d : Nat)
    (lst : List Nat) (tc : TCAState) (up : Hook) (t : Transport) (a r : Nat) (c : String)
    (h1 : lookupA w.conts cid = some lst) (h2 : d ∉ lst)
    (h3 : lookupA w.tcas tid = some tc) (h4 : lookupA tc.attached d = none)
    (h5 : t.readByteData a r = Except.error c) :
    I2CContainer.attach_device w cid PyObj.nonDevice = (w, some PyErr.typeMismatch)
  ∧ TCA9548.attach_device w tid channel PyObj.nonDevice = (w, some PyErr.typeMismatch)
  ∧ I2CContainer.remove_device w cid d = (w, some (PyErr.notAttachedCont d))
  ∧ TCA9548.remove_device w tid d = (w, some (PyErr.notAttachedTca d))
  ∧ runHook t (Hook.tcaCbk tid up) d w = (w, [Ev.dispatchTCA tid d], some (PyErr.chainIntegrity d))
  ∧ I2CDevice.readU8 t false a r = Except.ok (-1)
  ∧ I2CDevice.readU8 t true a r = Except.error (PyErr.busError "readU8" a r c) := by
  refine ⟨rfl, rfl, ?_, ?_, ?_, ?_, ?_⟩
  · simp [I2CContainer.remove_device, h1, h2]
  · simp [TCA9548.remove_device, h3, h4]
  · simp [runHook, h3, h4]
  · simp [I2CDevice.readU8, I2CDevice.handle_error, I2CDevice.ERROR, h5]
  · simp [I2CDevice.readU8, I2CDevice.handle_error, h5]

/-- C4 witness: the statement instantiated at a concrete state in which
device 9 is attached nowhere, with exceptions disabled. -/
theorem c4_structural_errors_always_raised_witness :
    I2CContainer.attach_device wMix 0 PyObj.nonDevice = (wMix, some PyErr.typeMismatch)
  ∧ TCA9548.attach_device wMix 7 3 PyObj.nonDevice = (wMix, some PyErr.typeMismatch)
  ∧ I2CContainer.remove_device wMix 0 9 = (wMix, some (PyErr.notAttachedCont 9))
  ∧ TCA9548.remove_device wMix 7 9 = (wMix, some (PyErr.notAttachedTca 9))
  ∧ runHook tFail (Hook.tcaCbk 7 Hook.root) 9 wMix =
      (wMix, [Ev.dispatchTCA 7 9], some (PyErr.chainIntegrity 9))
  ∧ I2CDevice.readU8 tFail false 7 3 = Except.ok (-1)
  ∧ I2CDevice.readU8 tFail true 7 3 = Except.error (PyErr.busError "readU8" 7 3 "IOError") :=
  c4_structural_errors_always_raised wMix 0 7 3 9 [10]
    { address := 112, attached := [(5, 2)], selected := none } Hook.root tFail 7 3 "IOError"
    (by decide) (by decide) (by decide) (by decide) rfl

/-- C7: detaching a device that is not a current member raises the
"not attached" exception and returns the state completely unchanged (member
lists, channel maps, cached selected channel and every hook included), for
containers and for TCA multiplexers alike. -/
theorem c7_detach_nonmember_fails_unchanged (w : St) (cid tid d : Nat)
    (lst : List Nat) (tc : TCAState)
    (h1 : lookupA w.conts cid = some lst) (h2 : d ∉ lst)
    (h3 : lookupA w.tcas tid = some tc) (h4 : lookupA tc.attached d = none) :
    I2CContainer.remove_device w cid d = (w, some (PyErr.notAttachedCont d))
  ∧ TCA9548.remove_device w tid d = (w, some (PyErr.notAttachedTca d)) := by
  constructor
  · simp [I2CContainer.remove_device, h1, h2]
  · simp [TCA9548.remove_device, h3, h4]

/-- C7 witness: detaching the never-attached device 9 from container 0 and
from TCA 7 of the concrete mixed state. -/
theorem c7_detach_nonmember_fails_unchanged_witness :
    I2CContainer.remove_device wMix 0 9 = (wMix, some (PyErr.notAttachedCont 9))
  ∧ TCA9548.remove_device wMix 7 9 = (wMix, some (PyErr.notAttachedTca 9)) :=
  c7_detach_nonmember_fails_unchanged wMix 0 7 9 [10]
    { address := 112, attached := [(5, 2)], selected := none }
    (by decide) (by decide) (by decide) (by decide)

/-- C5 counterexample: device 10 was attached to container 0 and then to
container 1, so its hook points to container 1; yet detaching it from
container 0 succeeds (no exception) and silently clears container 1's hook,
contradicting the claim that such a detach must raise. -/
theorem c5_counterexample :
    lookupA wAttachedAB.hooks 10 = some (HookRef.contCb 1)
  ∧ (I2CContainer.remove_device wAttachedAB 0 10).2 = none
  ∧ lookupA (I2CContainer.remove_device wAttachedAB 0 10).1.hooks 10 = none := by
  decide

/-- C5 (amended): detaching a current member never checks where the
member's hook points: it always succeeds and unconditionally clears the
node's hook (assuming, as Python object attributes guarantee, one hook
entry per object), even when that hook was installed by a different parent;
only detaching a non-member raises. -/
theorem c5_detach_clears_any_hook (w : St) (cid tid d : Nat)
    (lst : List Nat) (tc : TCAState) (ch : Nat)
    (hnd : (w.hooks.map Prod.fst).Nodup) :
    (lookupA w.conts cid = some lst → d ∈ lst →
       (I2CContainer.remove_device w cid d).2 = none
     ∧ lookupA (I2CContainer.remove_device w cid d).1.hooks d = none)
  ∧ (lookupA w.tcas tid = some tc → lookupA tc.attached d = some ch →
       (TCA9548.remove_device w tid d).2 = none
     ∧ lookupA (TCA9548.remove_device w tid d).1.hooks d = none) := by
  constructor
  · intro h1 h2
    simp only [I2CContainer.remove_device, h1, if_pos h2]
    exact ⟨trivial, lookupA_eraseA_self w.hooks d hnd⟩
  · intro h3 h4
    have he := lookupA_eraseA_self w.hooks d hnd
    simp [TCA9548.remove_device, h3, h4, he]

/-- C5 witness: detaching device 10 (hook pointing at container 1) from
container 0, and device 5 from TCA 7, in the concrete mixed state. -/
theorem c5_detach_clears_any_hook_witness :
    (lookupA wMix.conts 0 = some [10] → 10 ∈ [10] →
       (I2CContainer.remove_device wMix 0 10).2 = none
     ∧ lookupA (I2CContainer.remove_device wMix 0 10).1.hooks 10 = none)
  ∧ (lookupA wMix.tcas 7 = some { address := 112, attached := [(5, 2)], selected := none } →
       lookupA (TCAState.attached { address := 112, attached := [(5, 2)], selected := none }) 10 = some 2 →
       (TCA9548.remove_device wMix 7 10).2 = none
     ∧ lookupA (TCA9548.remove_device wMix 7 10).1.hooks 10 = none) :=
  c5_detach_clears_any_hook wMix 0 7 10 [10]
    { address := 112, attached := [(5, 2)], selected := none } 2 (by decide)

/-- C8 counterexample: after attaching device 10 to container 0 and then to
container 1, device 10 is still a member of container 0 while its hook
points to container 1 — attaching to a second parent does not clear the old
membership, and a member's hook need not point back to that parent. -/
theorem c8_counterexample :
    lookupA wAttachedAB.conts 0 = some [10]
  ∧ lookupA wAttachedAB.hooks 10 = some (HookRef.contCb 1)
  ∧ some (HookRef.contCb 1) ≠ some (HookRef.contCb 0) := by
  decide

/-- C8 (amended): every attach sets the node's delegation hook to the
attaching parent's dispatch function — the hook field holds at most one
hook, and the most recent attach wins — but attach does not remove the node
from any other parent's member set, so a node can remain listed by an old
parent while its hook points to the new one. -/
theorem c8_attach_hook_semantics (w : St) (cid tid channel d : Nat)
    (lst : List Nat) (tc : TCAState) :
    (lookupA w.conts cid = some lst →
       (I2CContainer.attach_device w cid (PyObj.inst d)).2 = none
     ∧ lookupA (I2CContainer.attach_device w cid (PyObj.inst d)).1.hooks d =
         some (HookRef.contCb cid)
     ∧ (∀ c', c' ≠ cid →
         lookupA (I2CContainer.attach_device w cid (PyObj.inst d)).1.conts c' =
           lookupA w.conts c'))
  ∧ (lookupA w.tcas tid = some tc →
       (TCA9548.attach_device w tid channel (PyObj.inst d)).2 = none
     ∧ lookupA (TCA9548.attach_device w tid channel (PyObj.inst d)).1.hooks d =
         some (HookRef.tcaCb tid)
     ∧ (∀ t', t' ≠ tid →
         lookupA (TCA9548.attach_device w tid channel (PyObj.inst d)).1.tcas t' =
           lookupA w.tcas t')) := by
  constructor
  · intro h1
    simp only [I2CContainer.attach_device, h1]
    exact ⟨trivial, lookupA_setA_self w.hooks d _,
      fun c' hc' => lookupA_setA_ne w.conts cid c' _ hc'⟩
  · intro h3
    simp only [TCA9548.attach_device, h3]
    exact ⟨trivial, lookupA_setA_self w.hooks d _,
      fun t' ht' => lookupA_setA_ne w.tcas tid t' _ ht'⟩

/-- C8 witness: attaching device 11 to container 0 and to TCA 7 of the
concrete mixed state. -/
theorem c8_attach_hook_semantics_witness :
    (lookupA wMix.conts 0 = some [10] →
       (I2CContainer.attach_device wMix 0 (PyObj.inst 11)).2 = none
     ∧ lookupA (I2CContainer.attach_device wMix 0 (PyObj.inst 11)).1.hooks 11 =
         some (HookRef.contCb 0)
     ∧ (∀ c', c' ≠ 0 →
         lookupA (I2CContainer.attach_device wMix 0 (PyObj.inst 11)).1.conts c' =
           lookupA wMix.conts c'))
  ∧ (lookupA wMix.tcas 7 = some { address := 112, attached := [(5, 2)], selected := none } →
       (TCA9548.attach_device wMix 7 4 (PyObj.inst 11)).2 = none
     ∧ lookupA (TCA9548.attach_device wMix 7 4 (PyObj.inst 11)).1.hooks 11 =
         some (HookRef.tcaCb 7)
     ∧ (∀ t', t' ≠ 7 →
         lookupA (TCA9548.attach_device wMix 7 4 (PyObj.inst 11)).1.tcas t' =
           lookupA wMix.tcas t')) :=
  c8_attach_hook_semantics wMix 0 7 4 11 [10]
    { address := 112, attached := [(5, 2)], selected := none }

/-- C3: with exceptions disabled and the bus failing, dispatching device 5
(channel 2) on the freshly constructed multiplexer completes without any
reported error, yet leaves `_selected_channel = 2` while the physical
channel-select register still holds 0 — the cache holds a channel number
the hardware register does not hold, and is not the `None` (unknown) state,
because the source updates the cache before issuing the select write and
never rolls it back. -/
theorem c3_cache_diverges_after_failed_select :
    (runHook tFail (Hook.tcaCbk 0 Hook.root) 5 sMuxFresh).2.2 = none
  ∧ lookupA (runHook tFail (Hook.tcaCbk 0 Hook.root) 5 sMuxFresh).1.tcas 0 =
      some { address := 112, attached := [(5, 2)], selected := some 2 }
  ∧ lookupA (runHook tFail (Hook.tcaCbk 0 Hook.root) 5 sMuxFresh).1.hw 112 = some 0
  ∧ (0 : Nat) ≠ 1 <<< 2 := by
  decide

/-- One dispatch step of a multiplexer that is itself a direct bus client
(`pre_access = None`): the callback checks membership, finds its own
upstream hook unset, compares the requested channel with the cache, and on
a miss updates the cache and issues the select write. -/
theorem runHook_root_mux_step (t : Transport) (tid dev ch : Nat) (u : TCAState) (s : St)
    (h1 : lookupA s.tcas tid = some u) (h2 : lookupA u.attached dev = some ch) :
    runHook t (Hook.tcaCbk tid Hook.root) dev s =
      if some ch = u.selected then
        (s, [Ev.dispatchTCA tid dev, Ev.cacheCheck tid dev], none)
      else
        match t.writeByteData u.address 0 (1 <<< ch) with
        | Except.ok _ =>
            ({ s with tcas := setA s.tcas tid { u with selected := some ch },
                      hw := setA s.hw u.address (1 <<< ch) },
             [Ev.dispatchTCA tid dev, Ev.cacheCheck tid dev,
              Ev.busWrite8 u.address 0 (1 <<< ch)], none)
        | Except.error c =>
            if s.exc then
              ({ s with tcas := setA s.tcas tid { u with selected := some ch } },
               [Ev.dispatchTCA tid dev, Ev.cacheCheck tid dev,
                Ev.busWrite8 u.address 0 (1 <<< ch)],
               some (PyErr.busError "write8" u.address 0 c))
            else
              ({ s with tcas := setA s.tcas tid { u with selected := some ch } },
               [Ev.dispatchTCA tid dev, Ev.cacheCheck tid dev,
                Ev.busWrite8 u.address 0 (1 <<< ch)], none) := by
  by_cases hsel : some ch = u.selected
  · simp [runHook, h1, h2, ← hsel]
  · cases hw : t.writeByteData u.address 0 (1 <<< ch) with
    | ok a => simp [runHook, h1, h2, hsel, hw]
    | error c =>
        cases hexc : s.exc with
        | true => simp [runHook, h1, h2, hsel, hw, hexc]
        | false => simp [runHook, h1, h2, hsel, hw, hexc]

/-- Sequence behaviour of a root multiplexer when every bus write succeeds:
no access raises, and access number i carries a channel-select write exactly
when the expected cache pattern says so. -/
theorem runSeq_root_mux (t : Transport)
    (hok : ∀ a r v, t.writeByteData a r v = Except.ok ()) (tid : Nat) :
    ∀ (accs : List (Nat × String × Nat)) (chs : List Nat) (s : St) (u : TCAState),
      lookupA s.tcas tid = some u →
      accs.map (fun a => lookupA u.attached a.1) = chs.map some →
      (runSeq t (Hook.tcaCbk tid Hook.root) s accs).2.2 = none
    ∧ (runSeq t (Hook.tcaCbk tid Hook.root) s accs).2.1.map
        (fun evs => !(selectWrites evs).isEmpty) = expectedSelects u.selected chs := by
  intro accs
  induction accs with
  | nil =>
      intro chs s u h1 hm
      cases chs with
      | nil => exact ⟨rfl, rfl⟩
      | cons c cs => simp at hm
  | cons a rest ih =>
      intro chs s u h1 hm
      obtain ⟨dev, op, reg⟩ := a
      cases chs with
      | nil => simp at hm
      | cons ch chs' =>
          simp only [List.map_cons] at hm
          injection hm with hdev hrest
          have hstep := runHook_root_mux_step t tid dev ch u s h1 hdev
          by_cases hsel : some ch = u.selected
          · rw [if_pos hsel] at hstep
            have hrec := ih chs' s u h1 hrest
            rcases hr : runSeq t (Hook.tcaCbk tid Hook.root) s rest with ⟨s2, trs, e2⟩
            rw [hr] at hrec
            simp only [runSeq, call_pre_access, hstep, hr]
            refine ⟨hrec.1, ?_⟩
            simp only [List.map_cons, hrec.2, ← hsel]
            simp [selectWrites, isSelectWrite, expectedSelects]
          · rw [if_neg hsel] at hstep
            simp only [hok] at hstep
            have h1' : lookupA ({ s with
                tcas := setA s.tcas tid { u with selected := some ch },
                hw := setA s.hw u.address (1 <<< ch) } : St).tcas tid =
                some { u with selected := some ch } := lookupA_setA_self s.tcas tid _
            have hrec := ih chs' _ { u with selected := some ch } h1' hrest
            rcases hr : runSeq t (Hook.tcaCbk tid Hook.root) { s with
                tcas := setA s.tcas tid { u with selected := some ch },
                hw := setA s.hw u.address (1 <<< ch) } rest with ⟨s2, trs, e2⟩
            rw [hr] at hrec
            simp only [runSeq, call_pre_access, hstep, hr]
            refine ⟨hrec.1, ?_⟩
            simp only [List.map_cons, hrec.2]
            have hne : (some ch != u.selected) = true := by
              simp [bne_iff_ne, hsel]
            simp [selectWrites, isSelectWrite, expectedSelects, hne]

/-- C1: on a working bus, construction writes 0 (no channel) to the
channel-select register and leaves the cache unknown (`None`); over any
sequence of accesses to nodes attached to the same multiplexer a
channel-select write is issued exactly when the accessed node's channel
differs from the cached selected channel; and the first access to any
attached node while the cache is unknown always issues the select write. -/
theorem c1_mux_cache_correctness (t : Transport)
    (hok : ∀ a r v, t.writeByteData a r v = Except.ok ()) :
    (∀ tid addr s,
        (TCA9548.init t tid addr s).2.1 = [Ev.busWrite8 addr 0 0]
      ∧ (TCA9548.init t tid addr s).2.2 = none
      ∧ lookupA (TCA9548.init t tid addr s).1.tcas tid =
          some { address := addr, attached := [], selected := none }
      ∧ lookupA (TCA9548.init t tid addr s).1.hw addr = some 0)
  ∧ (∀ tid (accs : List (Nat × String × Nat)) chs s u,
        lookupA s.tcas tid = some u →
        accs.map (fun a => lookupA u.attached a.1) = chs.map some →
        (runSeq t (Hook.tcaCbk tid Hook.root) s accs).2.2 = none
      ∧ (runSeq t (Hook.tcaCbk tid Hook.root) s accs).2.1.map
          (fun evs => !(selectWrites evs).isEmpty) = expectedSelects u.selected chs)
  ∧ (∀ tid s u dev op reg ch,
        lookupA s.tcas tid = some u → u.selected = none →
        lookupA u.attached dev = some ch →
        selectWrites (call_pre_access t (Hook.tcaCbk tid Hook.root) dev op reg s).2.1 =
          [Ev.busWrite8 u.address 0 (1 <<< ch)]) := by
  refine ⟨?_, ?_, ?_⟩
  · intro tid addr s
    unfold TCA9548.init
    simp only [hok]
    exact ⟨trivial, trivial, lookupA_setA_self _ _ _, lookupA_setA_self _ _ _⟩
  · intro tid accs chs s u h1 hm
    exact runSeq_root_mux t hok tid accs chs s u h1 hm
  · intro tid s u dev op reg ch h1 hnone h2
    have hstep := runHook_root_mux_step t tid dev ch u s h1 h2
    rw [if_neg (by simp [hnone])] at hstep
    simp only [hok] at hstep
    simp [call_pre_access, hstep, selectWrites, isSelectWrite]

/-- C1 witness: the cache-correctness statement instantiated at the
always-succeeding transport. -/
theorem c1_mux_cache_correctness_witness :
    (∀ tid addr s,
        (TCA9548.init tOk tid addr s).2.1 = [Ev.busWrite8 addr 0 0]
      ∧ (TCA9548.init tOk tid addr s).2.2 = none
      ∧ lookupA (TCA9548.init tOk tid addr s).1.tcas tid =
          some { address := addr, attached := [], selected := none }
      ∧ lookupA (TCA9548.init tOk tid addr s).1.hw addr = some 0)
  ∧ (∀ tid (accs : List (Nat × String × Nat)) chs s u,
        lookupA s.tcas tid = some u →
        accs.map (fun a => lookupA u.attached a.1) = chs.map some →
        (runSeq tOk (Hook.tcaCbk tid Hook.root) s accs).2.2 = none
      ∧ (runSeq tOk (Hook.tcaCbk tid Hook.root) s accs).2.1.map
          (fun evs => !(selectWrites evs).isEmpty) = expectedSelects u.selected chs)
  ∧ (∀ tid s u dev op reg ch,
        lookupA s.tcas tid = some u → u.selected = none →
        lookupA u.attached dev = some ch →
        selectWrites (call_pre_access tOk (Hook.tcaCbk tid Hook.root) dev op reg s).2.1 =
          [Ev.busWrite8 u.address 0 (1 <<< ch)]) :=
  c1_mux_cache_correctness tOk (fun _ _ _ => rfl)

/-- Dispatch never changes which TCAs exist, their bus addresses or their
channel maps: it only ever rewrites a `_selected_channel` (and the physical
register shadow). -/
theorem runHook_preserves_tca_shape (t : Transport) :
    ∀ (h : Hook) (dev : Nat) (s : St) (i : Nat) (u : TCAState),
      lookupA s.tcas i = some u →
      ∃ sel, lookupA (runHook t h dev s).1.tcas i =
        some { address := u.address, attached := u.attached, selected := sel } := by
  intro h
  induction h with
  | root =>
      intro dev s i u hu
      exact ⟨u.selected, hu⟩
  | contCbk cid up ih =>
      intro dev s i u hu
      obtain ⟨sel1, hs1⟩ := ih cid s i u hu
      rcases hru : runHook t up cid s with ⟨s1, evs1, e1⟩
      rw [hru] at hs1
      refine ⟨sel1, ?_⟩
      simp only [runHook, hru]
      exact hs1
  | tcaCbk tid up ih =>
      intro dev s i u hu
      cases hA : lookupA s.tcas tid with
      | none =>
          refine ⟨u.selected, ?_⟩
          simp only [runHook, hA]
          exact hu
      | some tc =>
        cases hB : lookupA tc.attached dev with
        | none =>
            refine ⟨u.selected, ?_⟩
            simp only [runHook, hA, hB]
            exact hu
        | some ch0 =>
          obtain ⟨sel1, hs1⟩ := ih tid s i u hu
          rcases hru : runHook t up tid s with ⟨s1, evs1, e1⟩
          rw [hru] at hs1
          cases e1 with
          | some e =>
              refine ⟨sel1, ?_⟩
              simp only [runHook, hA, hB, hru]
              exact hs1
          | none =>
            cases hC : lookupA s1.tcas tid with
            | none =>
                refine ⟨sel1, ?_⟩
                simp only [runHook, hA, hB, hru, hC]
                exact hs1
            | some tc1 =>
              cases hD : lookupA tc1.attached dev with
              | none =>
                  refine ⟨sel1, ?_⟩
                  simp only [runHook, hA, hB, hru, hC, hD]
                  exact hs1
              | some ch =>
                by_cases hsel : some ch = tc1.selected
                · refine ⟨sel1, ?_⟩
                  simp only [runHook, hA, hB, hru, hC, hD, if_pos hsel]
                  exact hs1
                · have hs2 : ∃ sel2, lookupA (setA s1.tcas tid { address := tc1.address, attached := tc1.attached, selected := some ch }) i = some { address := u.address, attached := u.attached, selected := sel2 } := by
                    by_cases hi : i = tid
                    · subst hi
                      rw [hC] at hs1
                      injection hs1 with h'
                      refine ⟨some ch, ?_⟩
                      rw [lookupA_setA_self, h']
                    · refine ⟨sel1, ?_⟩
                      rw [lookupA_setA_ne _ _ _ _ hi]
                      exact hs1
                  obtain ⟨sel2, hs2⟩ := hs2
                  have hmem2 : lookupA ({ s1 with tcas := setA s1.tcas tid { address := tc1.address, attached := tc1.attached, selected := some ch } } : St).tcas i = some { address := u.address, attached := u.attached, selected := sel2 } := hs2
                  obtain ⟨sel3, hs3⟩ := ih tid _ i _ hmem2
                  rcases hru2 : runHook t up tid ({ s1 with tcas := setA s1.tcas tid { address := tc1.address, attached := tc1.attached, selected := some ch } } : St) with ⟨s3, evs2, e2⟩
                  rw [hru2] at hs3
                  cases e2 with
                  | some e =>
                      refine ⟨sel3, ?_⟩
                      simp only [runHook, hA, hB, hru, hC, hD, if_neg hsel, hru2]
                      exact hs3
                  | none =>
                    cases hwr : t.writeByteData tc1.address 0 (1 <<< ch) with
                    | ok a =>
                        refine ⟨sel3, ?_⟩
                        simp only [runHook, hA, hB, hru, hC, hD, if_neg hsel, hru2, hwr]
                        exact hs3
                    | error c =>
                        cases hexc : s3.exc with
                        | true =>
                            refine ⟨sel3, ?_⟩
                            simp only [runHook, hA, hB, hru, hC, hD, if_neg hsel, hru2, hwr, hexc]
                            exact hs3
                        | false =>
                            refine ⟨sel3, ?_⟩
                            simp only [runHook, hA, hB, hru, hC, hD, if_neg hsel, hru2, hwr, hexc]
                            exact hs3

/-- C2: every decorated access entry point runs the node's delegation-hook
chain strictly before the wrapped bus transaction (the `txn` event comes
last); and for a multiplexer B whose own `pre_access` is the dispatch of an
upstream Container/Multiplexer A, every access to a leaf attached to B runs
A's entire dispatch trace strictly before B's cache check, so any
channel-select write B issues can only appear in the tail after that
check. -/
theorem c2_hook_precedes_transaction_and_chain (t : Transport) (hA : Hook)
    (bId dev : Nat) (opName : String) (reg : Nat) (s s1 : St) (bt : TCAState)
    (ch : Nat) (evsA : List Ev)
    (H1 : lookupA s.tcas bId = some bt)
    (H2 : lookupA bt.attached dev = some ch)
    (H3 : runHook t hA bId s = (s1, evsA, none)) :
    (∀ (h : Hook) (d : Nat) (s0 s0' : St) (evs : List Ev),
        runHook t h d s0 = (s0', evs, none) →
        call_pre_access t h d opName reg s0 = (s0', evs ++ [Ev.txn d opName reg], none))
  ∧ (∃ s' tail err, runHook t (Hook.tcaCbk bId hA) dev s =
        (s', Ev.dispatchTCA bId dev :: evsA ++ Ev.cacheCheck bId dev :: tail, err)) := by
  constructor
  · intro h d s0 s0' evs hrun
    simp only [call_pre_access, hrun]
  · obtain ⟨sel1, hs1⟩ := runHook_preserves_tca_shape t hA bId s bId bt H1
    rw [H3] at hs1
    by_cases hsel : some ch = sel1
    · refine ⟨s1, [], none, ?_⟩
      simp only [runHook, H1, H2, H3, hs1, if_pos hsel]
    · rcases hru2 : runHook t hA bId ({ s1 with tcas := setA s1.tcas bId { address := bt.address, attached := bt.attached, selected := some ch } } : St) with ⟨s3, evs2, e2⟩
      cases e2 with
      | some e =>
          refine ⟨s3, evs2, some e, ?_⟩
          simp only [runHook, H1, H2, H3, hs1, if_neg hsel, hru2]
      | none =>
        cases hwr : t.writeByteData bt.address 0 (1 <<< ch) with
        | ok a =>
            refine ⟨{ s3 with hw := setA s3.hw bt.address (1 <<< ch) },
              evs2 ++ [Ev.busWrite8 bt.address 0 (1 <<< ch)], none, ?_⟩
            simp [runHook, H1, H2, H3, hs1, if_neg hsel, hru2, hwr]
        | error c =>
            cases hexc : s3.exc with
            | true =>
                refine ⟨s3, evs2 ++ [Ev.busWrite8 bt.address 0 (1 <<< ch)],
                  some (PyErr.busError "write8" bt.address 0 c), ?_⟩
                simp [runHook, H1, H2, H3, hs1, if_neg hsel, hru2, hwr, hexc]
            | false =>
                refine ⟨s3, evs2 ++ [Ev.busWrite8 bt.address 0 (1 <<< ch)], none, ?_⟩
                simp [runHook, H1, H2, H3, hs1, if_neg hsel, hru2, hwr, hexc]

/-- C2 witness: the ordering statement instantiated at the fresh
single-multiplexer state with a trivial upstream chain. -/
theorem c2_hook_precedes_transaction_and_chain_witness :
    (∀ (h : Hook) (d : Nat) (s0 s0' : St) (evs : List Ev),
        runHook tOk h d s0 = (s0', evs, none) →
        call_pre_access tOk h d "readU8" 3 s0 = (s0', evs ++ [Ev.txn d "readU8" 3], none))
  ∧ (∃ s' tail err, runHook tOk (Hook.tcaCbk 0 Hook.root) 5 sMuxFresh =
        (s', Ev.dispatchTCA 0 5 :: [] ++ Ev.cacheCheck 0 5 :: tail, err)) :=
  c2_hook_precedes_transaction_and_chain tOk Hook.root 0 5 "readU8" 3 sMuxFresh sMuxFresh
    { address := 112, attached := [(5, 2)], selected := none } 2 []
    (by decide) (by decide) rfl
